import Mathlib

/-!
Shallow embedding of the CivicChain Solana program
(`src/solana-contract/programs/civicchain/src/lib.rs`).

Modelling conventions:
* `Pubkey` and the 32-byte `issue_hash` are opaque keys, modelled as `Nat`.
* `u32` fields are `Nat`s; `checked_add` embeds Rust's `u32::checked_add`,
  returning `none` exactly when the mathematical sum exceeds `u32::MAX`.
* Each Anchor instruction is a pure function from the on-chain state to
  `Except ChainError ChainState`.  The Anchor runtime serializes account
  mutations back only when the instruction returns `Ok`, so a failing
  instruction leaves the chain state untouched; `runOp` realizes exactly
  that commit-or-abort semantics.
* Account-constraint failures of the runtime are represented by the two
  extra error kinds `AlreadyExists` (an `init` constraint finding the PDA
  already occupied) and `NotFound` (a declared account that does not
  exist), wrapped together with the program's own `ErrorCode` in
  `ChainError`.
* `Clock::get()?.unix_timestamp` is an instantaneous external call; the
  value it returns during an instruction is passed in as the `now`
  argument.  `ctx.bumps` is likewise passed in as `bump`.
-/

/-- Opaque 32-byte Solana public key. -/
abbrev Pubkey := Nat

/-- Opaque 32-byte issue content hash (`[u8; 32]` in the source). -/
abbrev IssueHash := Nat

/-- Largest value representable in a `u32`. -/
def U32_MAX : Nat := 2 ^ 32 - 1

/-- Rust `u32::checked_add`: `none` when the sum would exceed `u32::MAX`. -/
def checked_add (x y : Nat) : Option Nat :=
  if x + y ≤ U32_MAX then some (x + y) else none

/-- `UserRole` enum from the source. -/
inductive UserRole : Type
  | Citizen
  | Government
deriving DecidableEq

/-- `IssueStatus` enum from the source. -/
inductive IssueStatus : Type
  | Open
  | InProgress
  | Resolved
  | Closed
deriving DecidableEq

/-- `IssueCategory` enum from the source. -/
inductive IssueCategory : Type
  | Pothole
  | Garbage
  | Streetlight
  | Water
  | Other
deriving DecidableEq

/-- `VoteType` enum from the source. -/
inductive VoteType : Type
  | Upvote
  | Downvote
deriving DecidableEq

/-- The program's `ErrorCode` enum. -/
inductive ErrorCode : Type
  | Overflow
  | InvalidStatus
  | Unauthorized
deriving DecidableEq

/-- Errors observable for a transaction: the program's own `ErrorCode`s
plus the Anchor account-constraint failures (duplicate `init`, missing
account). -/
inductive ChainError : Type
  | Program (e : ErrorCode)
  | AlreadyExists
  | NotFound
deriving DecidableEq

/-- `UserAccount` account structure from the source. -/
structure UserAccount : Type where
  wallet_address : Pubkey
  reputation : Nat
  role : UserRole
  total_issues : Nat
  total_verifications : Nat
  created_at : Int
  bump : Nat
deriving DecidableEq

/-- `IssueAccount` account structure from the source. -/
structure IssueAccount : Type where
  issue_hash : IssueHash
  reporter : Pubkey
  status : IssueStatus
  category : IssueCategory
  priority : Nat
  upvotes : Nat
  downvotes : Nat
  verifications : Nat
  created_at : Int
  updated_at : Int
  bump : Nat
deriving DecidableEq

/-- On-chain state: user accounts keyed by the wallet pubkey in their PDA
seeds (`[b"user", user_pubkey]`), issue accounts keyed by the issue hash
in theirs (`[b"issue", issue_hash]`). -/
structure ChainState : Type where
  users : List (Pubkey × UserAccount)
  issues : List (IssueHash × IssueAccount)
deriving DecidableEq

/-- Look a key up in an account map (first matching entry). -/
def lookupRec {α : Type} (k : Nat) : List (Nat × α) → Option α
  | [] => none
  | (k0, v) :: rest => if k0 = k then some v else lookupRec k rest

/-- Overwrite the record stored at `k` (first matching entry), leaving the
map unchanged when `k` is absent. -/
def setRec {α : Type} (k : Nat) (v : α) : List (Nat × α) → List (Nat × α)
  | [] => []
  | (k0, v0) :: rest =>
      if k0 = k then (k0, v) :: rest else (k0, v0) :: setRec k v rest

/-- `initialize_user` instruction.  The `init` constraint on
`user_account` (PDA seeds `[b"user", user_pubkey]`) fails when the
account already exists; otherwise the body fills in every field.  The
`payer` signer funds the account but is never read by the body, and no
check relates it to `user_pubkey` or to `role`. -/
def initialize_user (st : ChainState) (payer : Pubkey) (user_pubkey : Pubkey)
    (initial_rep : Nat) (role : UserRole) (now : Int) (bump : Nat) :
    Except ChainError ChainState :=
  match lookupRec user_pubkey st.users with
  | some _ => Except.error ChainError.AlreadyExists
  | none =>
      let user_account : UserAccount :=
        { wallet_address := user_pubkey
          reputation := initial_rep
          role := role
          total_issues := 0
          total_verifications := 0
          created_at := now
          bump := bump }
      Except.ok { st with users := (user_pubkey, user_account) :: st.users }

/-- `create_issue` instruction.  The `init` constraint on `issue_account`
(PDA seeds `[b"issue", issue_hash]`) fails when the hash is taken; the
`user_account` constraint (seeds `[b"user", authority]`) fails when the
signing authority has no user record.  The body fills in the issue fields
and then does the overflow-checked bump of `total_issues`; an `Err`
return aborts the transaction, so no issue record is committed then. -/
def create_issue (st : ChainState) (authority : Pubkey) (issue_hash : IssueHash)
    (category : IssueCategory) (priority : Nat) (now : Int) (bump : Nat) :
    Except ChainError ChainState :=
  match lookupRec issue_hash st.issues with
  | some _ => Except.error ChainError.AlreadyExists
  | none =>
      match lookupRec authority st.users with
      | none => Except.error ChainError.NotFound
      | some user_account =>
          let issue_account : IssueAccount :=
            { issue_hash := issue_hash
              reporter := authority
              status := IssueStatus.Open
              category := category
              priority := priority
              upvotes := 0
              downvotes := 0
              verifications := 0
              created_at := now
              updated_at := now
              bump := bump }
          match checked_add user_account.total_issues 1 with
          | none => Except.error (ChainError.Program ErrorCode.Overflow)
          | some t =>
              Except.ok
                { st with
                  issues := (issue_hash, issue_account) :: st.issues
                  users := setRec authority
                    { user_account with total_issues := t } st.users }

/-- `record_vote` instruction.  The context also loads a
`reporter_account` and a `voter_account`; the voter must have a user
record (seeds `[b"user", voter]`).  The `reporter_account` is
self-seeded and never read by the body, so it is not modelled.  The body
bumps the matching vote counter (overflow-checked) and refreshes
`updated_at`. -/
def record_vote (st : ChainState) (voter : Pubkey) (issue_hash : IssueHash)
    (vote_type : VoteType) (now : Int) : Except ChainError ChainState :=
  match lookupRec issue_hash st.issues with
  | none => Except.error ChainError.NotFound
  | some issue_account =>
      match lookupRec voter st.users with
      | none => Except.error ChainError.NotFound
      | some _ =>
          match vote_type with
          | VoteType.Upvote =>
              match checked_add issue_account.upvotes 1 with
              | none => Except.error (ChainError.Program ErrorCode.Overflow)
              | some u =>
                  Except.ok
                    { st with
                      issues := setRec issue_hash
                        { issue_account with upvotes := u, updated_at := now }
                        st.issues }
          | VoteType.Downvote =>
              match checked_add issue_account.downvotes 1 with
              | none => Except.error (ChainError.Program ErrorCode.Overflow)
              | some d =>
                  Except.ok
                    { st with
                      issues := setRec issue_hash
                        { issue_account with downvotes := d, updated_at := now }
                        st.issues }

/-- `record_verification` instruction.  Requires `status == Resolved`
(`ErrorCode::InvalidStatus` otherwise), bumps `verifications`
(overflow-checked), auto-closes at the threshold of 3, refreshes
`updated_at`, and bumps the verifier's `total_verifications`
(overflow-checked).  Either failing `checked_add` aborts the whole
transaction. -/
def record_verification (st : ChainState) (verifier : Pubkey)
    (issue_hash : IssueHash) (now : Int) : Except ChainError ChainState :=
  match lookupRec issue_hash st.issues with
  | none => Except.error ChainError.NotFound
  | some issue_account =>
      match lookupRec verifier st.users with
      | none => Except.error ChainError.NotFound
      | some verifier_account =>
          if issue_account.status = IssueStatus.Resolved then
            match checked_add issue_account.verifications 1 with
            | none => Except.error (ChainError.Program ErrorCode.Overflow)
            | some v =>
                let issue1 := { issue_account with verifications := v }
                let issue2 :=
                  if issue1.verifications ≥ 3 then
                    { issue1 with status := IssueStatus.Closed }
                  else issue1
                let issue3 := { issue2 with updated_at := now }
                match checked_add verifier_account.total_verifications 1 with
                | none => Except.error (ChainError.Program ErrorCode.Overflow)
                | some tv =>
                    Except.ok
                      { st with
                        issues := setRec issue_hash issue3 st.issues
                        users := setRec verifier
                          { verifier_account with total_verifications := tv }
                          st.users }
          else Except.error (ChainError.Program ErrorCode.InvalidStatus)

/-- `update_issue_status` instruction.  Requires the caller's user record
(seeds `[b"user", government]`) to have `role == Government`
(`ErrorCode::Unauthorized` otherwise), then sets the status
unconditionally and refreshes `updated_at`. -/
def update_issue_status (st : ChainState) (government : Pubkey)
    (issue_hash : IssueHash) (new_status : IssueStatus) (now : Int) :
    Except ChainError ChainState :=
  match lookupRec issue_hash st.issues with
  | none => Except.error ChainError.NotFound
  | some issue_account =>
      match lookupRec government st.users with
      | none => Except.error ChainError.NotFound
      | some government_account =>
          if government_account.role = UserRole.Government then
            Except.ok
              { st with
                issues := setRec issue_hash
                  { issue_account with status := new_status, updated_at := now }
                  st.issues }
          else Except.error (ChainError.Program ErrorCode.Unauthorized)

/-- `update_reputation` instruction.  The target `user_account` is
self-seeded by its own `wallet_address`; the `authority` signer is never
read and no role or ownership check is performed.  Overwrites
`reputation` only. -/
def update_reputation (st : ChainState) (authority : Pubkey)
    (wallet_address : Pubkey) (new_rep : Nat) : Except ChainError ChainState :=
  match lookupRec wallet_address st.users with
  | none => Except.error ChainError.NotFound
  | some user_account =>
      Except.ok
        { st with
          users := setRec wallet_address
            { user_account with reputation := new_rep } st.users }

/-- One invocation of one of the six public instructions, with its
arguments. -/
inductive Op : Type
  | InitializeUser (payer user_pubkey : Pubkey) (initial_rep : Nat)
      (role : UserRole) (now : Int) (bump : Nat)
  | CreateIssue (authority : Pubkey) (issue_hash : IssueHash)
      (category : IssueCategory) (priority : Nat) (now : Int) (bump : Nat)
  | RecordVote (voter : Pubkey) (issue_hash : IssueHash)
      (vote_type : VoteType) (now : Int)
  | RecordVerification (verifier : Pubkey) (issue_hash : IssueHash) (now : Int)
  | UpdateIssueStatus (government : Pubkey) (issue_hash : IssueHash)
      (new_status : IssueStatus) (now : Int)
  | UpdateReputation (authority wallet_address : Pubkey) (new_rep : Nat)
deriving DecidableEq

/-- Dispatch an operation to its instruction handler. -/
def exec (st : ChainState) : Op → Except ChainError ChainState
  | Op.InitializeUser payer user_pubkey initial_rep role now bump =>
      initialize_user st payer user_pubkey initial_rep role now bump
  | Op.CreateIssue authority issue_hash category priority now bump =>
      create_issue st authority issue_hash category priority now bump
  | Op.RecordVote voter issue_hash vote_type now =>
      record_vote st voter issue_hash vote_type now
  | Op.RecordVerification verifier issue_hash now =>
      record_verification st verifier issue_hash now
  | Op.UpdateIssueStatus government issue_hash new_status now =>
      update_issue_status st government issue_hash new_status now
  | Op.UpdateReputation authority wallet_address new_rep =>
      update_reputation st authority wallet_address new_rep

/-- Commit-or-abort semantics of the runtime: a transaction that returns
`Err` leaves the chain state exactly as it was and surfaces the error. -/
def runOp (st : ChainState) (op : Op) : ChainState × Option ChainError :=
  match exec st op with
  | Except.ok st1 => (st1, none)
  | Except.error e => (st, some e)

/-! ### Concrete fixtures for closed-form evaluations -/

/-- A citizen user with all counters at zero. -/
def citizenUser : UserAccount :=
  { wallet_address := 1, reputation := 0, role := UserRole.Citizen,
    total_issues := 0, total_verifications := 0, created_at := 0, bump := 255 }

/-- A government user. -/
def governmentUser : UserAccount :=
  { wallet_address := 2, reputation := 10, role := UserRole.Government,
    total_issues := 0, total_verifications := 0, created_at := 0, bump := 255 }

/-- A verifier whose `total_verifications` counter is saturated. -/
def saturatedVerifier : UserAccount :=
  { wallet_address := 3, reputation := 0, role := UserRole.Citizen,
    total_issues := 0, total_verifications := U32_MAX, created_at := 0,
    bump := 255 }

/-- A reporter whose `total_issues` counter is saturated. -/
def saturatedReporter : UserAccount :=
  { wallet_address := 4, reputation := 0, role := UserRole.Citizen,
    total_issues := U32_MAX, total_verifications := 0, created_at := 0,
    bump := 255 }

/-- A resolved issue with two verifications so far. -/
def resolvedIssue : IssueAccount :=
  { issue_hash := 10, reporter := 1, status := IssueStatus.Resolved,
    category := IssueCategory.Pothole, priority := 5, upvotes := 0,
    downvotes := 0, verifications := 2, created_at := 0, updated_at := 0,
    bump := 254 }

/-- An open issue. -/
def openIssue : IssueAccount :=
  { issue_hash := 11, reporter := 1, status := IssueStatus.Open,
    category := IssueCategory.Garbage, priority := 1, upvotes := 0,
    downvotes := 0, verifications := 0, created_at := 0, updated_at := 0,
    bump := 254 }

/-- A resolved issue with every counter saturated. -/
def saturatedIssue : IssueAccount :=
  { issue_hash := 12, reporter := 1, status := IssueStatus.Resolved,
    category := IssueCategory.Water, priority := 0, upvotes := U32_MAX,
    downvotes := U32_MAX, verifications := U32_MAX, created_at := 0,
    updated_at := 0, bump := 254 }

/-- A closed issue. -/
def closedIssue : IssueAccount :=
  { issue_hash := 13, reporter := 1, status := IssueStatus.Closed,
    category := IssueCategory.Streetlight, priority := 2, upvotes := 4,
    downvotes := 1, verifications := 3, created_at := 0, updated_at := 0,
    bump := 254 }

/-- A concrete chain state holding all of the fixtures above. -/
def stW : ChainState :=
  { users := [(1, citizenUser), (2, governmentUser), (3, saturatedVerifier),
      (4, saturatedReporter)],
    issues := [(10, resolvedIssue), (11, openIssue), (12, saturatedIssue),
      (13, closedIssue)] }

/-- Per-record monotonicity for user records: counters never decrease
and the role never changes. -/
def UserMono (u u1 : UserAccount) : Prop :=
  u.total_issues ≤ u1.total_issues ∧
  u.total_verifications ≤ u1.total_verifications ∧
  u1.role = u.role

/-- Per-record monotonicity for issue records: the three counters never
decrease. -/
def IssueMono (i i1 : IssueAccount) : Prop :=
  i.upvotes ≤ i1.upvotes ∧
  i.downvotes ≤ i1.downvotes ∧
  i.verifications ≤ i1.verifications

/-! ### Basic lemmas about the account map and checked arithmetic -/

theorem checked_add_eq_add {x y z : Nat} (h : checked_add x y = some z) :
    z = x + y := by
  unfold checked_add at h
  split at h
  · exact (Option.some.inj h).symm
  · cases h

theorem checked_add_some (x y : Nat) (h : x + y ≤ U32_MAX) :
    checked_add x y = some (x + y) := by
  unfold checked_add
  exact if_pos h

theorem checked_add_none (x y : Nat) (h : U32_MAX < x + y) :
    checked_add x y = none := by
  unfold checked_add
  exact if_neg (by omega)

theorem lookupRec_cons {α : Type} (k k0 : Nat) (v : α) (l : List (Nat × α)) :
    lookupRec k ((k0, v) :: l) = if k0 = k then some v else lookupRec k l :=
  rfl

theorem lookupRec_setRec_self {α : Type} (k : Nat) (v u : α)
    (l : List (Nat × α)) (h : lookupRec k l = some u) :
    lookupRec k (setRec k v l) = some v := by
  induction l with
  | nil => simp [lookupRec] at h
  | cons hd tl ih =>
      obtain ⟨a, b⟩ := hd
      by_cases hak : a = k
      · simp [setRec, lookupRec, hak]
      · simp only [lookupRec, if_neg hak] at h
        simp [setRec, lookupRec, hak, ih h]

theorem lookupRec_setRec_ne {α : Type} (k k0 : Nat) (v : α)
    (l : List (Nat × α)) (h : k0 ≠ k) :
    lookupRec k (setRec k0 v l) = lookupRec k l := by
  induction l with
  | nil => rfl
  | cons hd tl ih =>
      obtain ⟨a, b⟩ := hd
      by_cases hak : a = k0
      · subst hak
        simp [setRec, lookupRec, h, ih]
      · simp only [setRec, if_neg hak]
        by_cases hk : a = k
        · simp [lookupRec, hk]
        · simp [lookupRec, hk, ih]

/-! ### Claims -/

/-- Claim C1: on a Resolved issue, a verifier whose `total_verifications`
counter sits at `2^32 - 1` makes `record_verification` fail with
`Overflow`, and the failed transaction leaves the issue record (its
`verifications`, `status` and `updated_at` in particular) exactly as it
was: failed operations have no partial effect. -/
theorem recordVerification_verifier_overflow_atomic
    (st : ChainState) (verifier : Pubkey) (issue_hash : IssueHash) (now : Int)
    (issue_account : IssueAccount) (verifier_account : UserAccount)
    (hI : lookupRec issue_hash st.issues = some issue_account)
    (hS : issue_account.status = IssueStatus.Resolved)
    (hV : lookupRec verifier st.users = some verifier_account)
    (hT : verifier_account.total_verifications = U32_MAX) :
    runOp st (Op.RecordVerification verifier issue_hash now) =
      (st, some (ChainError.Program ErrorCode.Overflow)) ∧
    lookupRec issue_hash
        (runOp st (Op.RecordVerification verifier issue_hash now)).1.issues =
      some issue_account := by
  have hE : exec st (Op.RecordVerification verifier issue_hash now) =
      Except.error (ChainError.Program ErrorCode.Overflow) := by
    show record_verification st verifier issue_hash now = _
    unfold record_verification
    simp only [hI, hV]
    rw [if_pos hS]
    rcases hv : checked_add issue_account.verifications 1 with _ | v
    · rfl
    · rw [hT, checked_add_none U32_MAX 1 (by omega)]
  refine ⟨by simp [runOp, hE], by simp [runOp, hE, hI]⟩

/-- Witness for C1: the concrete state `stW`, verifier 3 (saturated
counter) on resolved issue 10. -/
theorem recordVerification_verifier_overflow_atomic_w :
    runOp stW (Op.RecordVerification 3 10 7) =
      (stW, some (ChainError.Program ErrorCode.Overflow)) ∧
    lookupRec 10 (runOp stW (Op.RecordVerification 3 10 7)).1.issues =
      some resolvedIssue :=
  recordVerification_verifier_overflow_atomic stW 3 10 7 resolvedIssue
    saturatedVerifier (by decide) (by decide) (by decide) (by decide)

/-- Claim C2: `record_verification` on an issue whose status is anything
other than Resolved (Open, InProgress or Closed, auto-closed issues
included) fails with `InvalidStatus` and leaves the issue record, its
`verifications` counter in particular, unchanged. -/
theorem recordVerification_invalid_status
    (st : ChainState) (verifier : Pubkey) (issue_hash : IssueHash) (now : Int)
    (issue_account : IssueAccount) (verifier_account : UserAccount)
    (hI : lookupRec issue_hash st.issues = some issue_account)
    (hV : lookupRec verifier st.users = some verifier_account)
    (hS : issue_account.status ≠ IssueStatus.Resolved) :
    runOp st (Op.RecordVerification verifier issue_hash now) =
      (st, some (ChainError.Program ErrorCode.InvalidStatus)) ∧
    lookupRec issue_hash
        (runOp st (Op.RecordVerification verifier issue_hash now)).1.issues =
      some issue_account := by
  have hE : exec st (Op.RecordVerification verifier issue_hash now) =
      Except.error (ChainError.Program ErrorCode.InvalidStatus) := by
    show record_verification st verifier issue_hash now = _
    unfold record_verification
    simp only [hI, hV]
    rw [if_neg hS]
  refine ⟨by simp [runOp, hE], by simp [runOp, hE, hI]⟩

/-- Witness for C2: citizen 1 attempts to verify the open issue 11 in
`stW`. -/
theorem recordVerification_invalid_status_w :
    runOp stW (Op.RecordVerification 1 11 7) =
      (stW, some (ChainError.Program ErrorCode.InvalidStatus)) ∧
    lookupRec 11 (runOp stW (Op.RecordVerification 1 11 7)).1.issues =
      some openIssue :=
  recordVerification_invalid_status stW 1 11 7 openIssue citizenUser
    (by decide) (by decide) (by decide)

/-- Claim C3: a successful `record_verification` on a Resolved issue with
an unsaturated verifier bumps `verifications` by one, bumps the
verifier's `total_verifications` by one, refreshes `updated_at`, and sets
the status to Closed exactly when the post-increment count reaches 3
(it stays Resolved below 3); in particular `verifications = 2` becomes
`verifications = 3` with status Closed. -/
theorem recordVerification_success
    (st : ChainState) (verifier : Pubkey) (issue_hash : IssueHash) (now : Int)
    (issue_account : IssueAccount) (verifier_account : UserAccount)
    (hI : lookupRec issue_hash st.issues = some issue_account)
    (hV : lookupRec verifier st.users = some verifier_account)
    (hS : issue_account.status = IssueStatus.Resolved)
    (hc : issue_account.verifications < U32_MAX)
    (ht : verifier_account.total_verifications < U32_MAX) :
    ∃ st1,
      exec st (Op.RecordVerification verifier issue_hash now) =
        Except.ok st1 ∧
      lookupRec issue_hash st1.issues = some
        { issue_account with
            verifications := issue_account.verifications + 1
            status :=
              if issue_account.verifications + 1 ≥ 3 then IssueStatus.Closed
              else IssueStatus.Resolved
            updated_at := now } ∧
      lookupRec verifier st1.users = some
        { verifier_account with
            total_verifications := verifier_account.total_verifications + 1 } := by
  have h1 : checked_add issue_account.verifications 1 =
      some (issue_account.verifications + 1) :=
    checked_add_some _ _ (by omega)
  have h2 : checked_add verifier_account.total_verifications 1 =
      some (verifier_account.total_verifications + 1) :=
    checked_add_some _ _ (by omega)
  have hE : exec st (Op.RecordVerification verifier issue_hash now) =
      Except.ok
        { st with
          issues := setRec issue_hash
            (if issue_account.verifications + 1 ≥ 3 then
              { issue_account with
                  verifications := issue_account.verifications + 1
                  status := IssueStatus.Closed
                  updated_at := now }
             else
              { issue_account with
                  verifications := issue_account.verifications + 1
                  updated_at := now })
            st.issues
          users := setRec verifier
            { verifier_account with
                total_verifications := verifier_account.total_verifications + 1 }
            st.users } := by
    show record_verification st verifier issue_hash now = _
    unfold record_verification
    simp only [hI, hV]
    rw [if_pos hS]
    simp only [h1, h2]
    by_cases h3 : issue_account.verifications + 1 ≥ 3 <;> simp [h3]
  refine ⟨_, hE, ?_, ?_⟩
  · show lookupRec issue_hash (setRec issue_hash _ st.issues) = _
    rw [lookupRec_setRec_self issue_hash _ issue_account st.issues hI]
    by_cases h3 : issue_account.verifications + 1 ≥ 3 <;>
      simp [h3, ← hS]
  · show lookupRec verifier (setRec verifier _ st.users) = _
    rw [lookupRec_setRec_self verifier _ verifier_account st.users hV]

/-- Witness for C3: citizen 1 verifies resolved issue 10 (two prior
verifications) in `stW`; the count reaches 3 and the issue closes. -/
theorem recordVerification_success_w :
    ∃ st1,
      exec stW (Op.RecordVerification 1 10 7) = Except.ok st1 ∧
      lookupRec 10 st1.issues = some
        { resolvedIssue with
            verifications := resolvedIssue.verifications + 1
            status :=
              if resolvedIssue.verifications + 1 ≥ 3 then IssueStatus.Closed
              else IssueStatus.Resolved
            updated_at := 7 } ∧
      lookupRec 1 st1.users = some
        { citizenUser with
            total_verifications := citizenUser.total_verifications + 1 } :=
  recordVerification_success stW 1 10 7 resolvedIssue citizenUser
    (by decide) (by decide) (by decide) (by decide) (by decide)

/-- Claim C4: every u32 counter an instruction mutates
(`total_issues` in `create_issue`, `upvotes` and `downvotes` in
`record_vote`, `verifications` and `total_verifications` in
`record_verification`) goes through `checked_add`; when the counter
already holds `2^32 - 1` the transaction fails with `Overflow` and the
state — hence the counter — is unchanged: the increment never wraps. -/
theorem counters_overflow_checked (st : ChainState) :
    (∀ authority issue_hash category priority now bump reporter,
      lookupRec issue_hash st.issues = none →
      lookupRec authority st.users = some reporter →
      reporter.total_issues = U32_MAX →
      runOp st (Op.CreateIssue authority issue_hash category priority now bump) =
        (st, some (ChainError.Program ErrorCode.Overflow))) ∧
    (∀ voter issue_hash now issue_account voter_account,
      lookupRec issue_hash st.issues = some issue_account →
      lookupRec voter st.users = some voter_account →
      issue_account.upvotes = U32_MAX →
      runOp st (Op.RecordVote voter issue_hash VoteType.Upvote now) =
        (st, some (ChainError.Program ErrorCode.Overflow))) ∧
    (∀ voter issue_hash now issue_account voter_account,
      lookupRec issue_hash st.issues = some issue_account →
      lookupRec voter st.users = some voter_account →
      issue_account.downvotes = U32_MAX →
      runOp st (Op.RecordVote voter issue_hash VoteType.Downvote now) =
        (st, some (ChainError.Program ErrorCode.Overflow))) ∧
    (∀ verifier issue_hash now issue_account verifier_account,
      lookupRec issue_hash st.issues = some issue_account →
      lookupRec verifier st.users = some verifier_account →
      issue_account.status = IssueStatus.Resolved →
      issue_account.verifications = U32_MAX →
      runOp st (Op.RecordVerification verifier issue_hash now) =
        (st, some (ChainError.Program ErrorCode.Overflow))) ∧
    (∀ verifier issue_hash now issue_account verifier_account,
      lookupRec issue_hash st.issues = some issue_account →
      lookupRec verifier st.users = some verifier_account →
      issue_account.status = IssueStatus.Resolved →
      verifier_account.total_verifications = U32_MAX →
      runOp st (Op.RecordVerification verifier issue_hash now) =
        (st, some (ChainError.Program ErrorCode.Overflow))) := by
  refine ⟨?_, ?_, ?_, ?_, ?_⟩
  · intro authority issue_hash category priority now bump reporter hF hR hmax
    have hE : exec st
        (Op.CreateIssue authority issue_hash category priority now bump) =
        Except.error (ChainError.Program ErrorCode.Overflow) := by
      show create_issue st authority issue_hash category priority now bump = _
      unfold create_issue
      simp only [hF, hR]
      rw [hmax, checked_add_none U32_MAX 1 (by omega)]
    simp [runOp, hE]
  · intro voter issue_hash now issue_account voter_account hI hV hmax
    have hE : exec st (Op.RecordVote voter issue_hash VoteType.Upvote now) =
        Except.error (ChainError.Program ErrorCode.Overflow) := by
      show record_vote st voter issue_hash VoteType.Upvote now = _
      unfold record_vote
      simp only [hI, hV]
      rw [hmax, checked_add_none U32_MAX 1 (by omega)]
    simp [runOp, hE]
  · intro voter issue_hash now issue_account voter_account hI hV hmax
    have hE : exec st (Op.RecordVote voter issue_hash VoteType.Downvote now) =
        Except.error (ChainError.Program ErrorCode.Overflow) := by
      show record_vote st voter issue_hash VoteType.Downvote now = _
      unfold record_vote
      simp only [hI, hV]
      rw [hmax, checked_add_none U32_MAX 1 (by omega)]
    simp [runOp, hE]
  · intro verifier issue_hash now issue_account verifier_account hI hV hS hmax
    have hE : exec st (Op.RecordVerification verifier issue_hash now) =
        Except.error (ChainError.Program ErrorCode.Overflow) := by
      show record_verification st verifier issue_hash now = _
      unfold record_verification
      simp only [hI, hV]
      rw [if_pos hS, hmax, checked_add_none U32_MAX 1 (by omega)]
    simp [runOp, hE]
  · intro verifier issue_hash now issue_account verifier_account hI hV hS hmax
    have hE : exec st (Op.RecordVerification verifier issue_hash now) =
        Except.error (ChainError.Program ErrorCode.Overflow) := by
      show record_verification st verifier issue_hash now = _
      unfold record_verification
      simp only [hI, hV]
      rw [if_pos hS]
      rcases hv : checked_add issue_account.verifications 1 with _ | v
      · rfl
      · rw [hmax, checked_add_none U32_MAX 1 (by omega)]
    simp [runOp, hE]

/-- Witness for C4: all five saturated-counter scenarios evaluated in
`stW` (reporter 4, issue 12 with saturated vote and verification
counters, verifier 3). -/
theorem counters_overflow_checked_w :
    runOp stW (Op.CreateIssue 4 99 IssueCategory.Other 0 7 253) =
      (stW, some (ChainError.Program ErrorCode.Overflow)) ∧
    runOp stW (Op.RecordVote 1 12 VoteType.Upvote 7) =
      (stW, some (ChainError.Program ErrorCode.Overflow)) ∧
    runOp stW (Op.RecordVote 1 12 VoteType.Downvote 7) =
      (stW, some (ChainError.Program ErrorCode.Overflow)) ∧
    runOp stW (Op.RecordVerification 1 12 7) =
      (stW, some (ChainError.Program ErrorCode.Overflow)) ∧
    runOp stW (Op.RecordVerification 3 10 7) =
      (stW, some (ChainError.Program ErrorCode.Overflow)) :=
  ⟨(counters_overflow_checked stW).1 4 99 IssueCategory.Other 0 7 253
      saturatedReporter (by decide) (by decide) (by decide),
   (counters_overflow_checked stW).2.1 1 12 7 saturatedIssue citizenUser
      (by decide) (by decide) (by decide),
   (counters_overflow_checked stW).2.2.1 1 12 7 saturatedIssue citizenUser
      (by decide) (by decide) (by decide),
   (counters_overflow_checked stW).2.2.2.1 1 12 7 saturatedIssue citizenUser
      (by decide) (by decide) (by decide) (by decide),
   (counters_overflow_checked stW).2.2.2.2 3 10 7 resolvedIssue
      saturatedVerifier (by decide) (by decide) (by decide) (by decide)⟩

/-- Claim C5: `update_issue_status` invoked by a Citizen caller fails
with `Unauthorized` and leaves the issue unchanged; invoked by a
Government caller it succeeds and writes exactly the requested status for
any (old, new) pair — no transition-graph validation, backward moves
included — refreshing `updated_at`. -/
theorem updateIssueStatus_role_gate
    (st : ChainState) (caller : Pubkey) (issue_hash : IssueHash)
    (new_status : IssueStatus) (now : Int)
    (issue_account : IssueAccount) (caller_account : UserAccount)
    (hI : lookupRec issue_hash st.issues = some issue_account)
    (hC : lookupRec caller st.users = some caller_account) :
    (caller_account.role = UserRole.Citizen →
      runOp st (Op.UpdateIssueStatus caller issue_hash new_status now) =
        (st, some (ChainError.Program ErrorCode.Unauthorized)) ∧
      lookupRec issue_hash
          (runOp st (Op.UpdateIssueStatus caller issue_hash new_status now)).1.issues =
        some issue_account) ∧
    (caller_account.role = UserRole.Government →
      ∃ st1,
        exec st (Op.UpdateIssueStatus caller issue_hash new_status now) =
          Except.ok st1 ∧
        lookupRec issue_hash st1.issues =
          some { issue_account with status := new_status, updated_at := now }) := by
  constructor
  · intro hrole
    have hE : exec st (Op.UpdateIssueStatus caller issue_hash new_status now) =
        Except.error (ChainError.Program ErrorCode.Unauthorized) := by
      show update_issue_status st caller issue_hash new_status now = _
      unfold update_issue_status
      simp only [hI, hC]
      rw [if_neg (by simp [hrole])]
    exact ⟨by simp [runOp, hE], by simp [runOp, hE, hI]⟩
  · intro hrole
    have hE : exec st (Op.UpdateIssueStatus caller issue_hash new_status now) =
        Except.ok
          { st with
            issues := setRec issue_hash
              { issue_account with status := new_status, updated_at := now }
              st.issues } := by
      show update_issue_status st caller issue_hash new_status now = _
      unfold update_issue_status
      simp only [hI, hC]
      rw [if_pos hrole]
    exact ⟨_, hE, lookupRec_setRec_self _ _ _ _ hI⟩

/-- Witness for C5: in `stW`, citizen 1 is rejected on issue 11, while
government user 2 moves the closed issue 13 backward to Open. -/
theorem updateIssueStatus_role_gate_w :
    (runOp stW (Op.UpdateIssueStatus 1 11 IssueStatus.Resolved 7) =
        (stW, some (ChainError.Program ErrorCode.Unauthorized)) ∧
      lookupRec 11
          (runOp stW (Op.UpdateIssueStatus 1 11 IssueStatus.Resolved 7)).1.issues =
        some openIssue) ∧
    (∃ st1,
      exec stW (Op.UpdateIssueStatus 2 13 IssueStatus.Open 7) = Except.ok st1 ∧
      lookupRec 13 st1.issues =
        some { closedIssue with status := IssueStatus.Open, updated_at := 7 }) :=
  ⟨(updateIssueStatus_role_gate stW 1 11 IssueStatus.Resolved 7 openIssue
      citizenUser (by decide) (by decide)).1 (by decide),
   (updateIssueStatus_role_gate stW 2 13 IssueStatus.Open 7 closedIssue
      governmentUser (by decide) (by decide)).2 (by decide)⟩

/-- Claim C6: creating is never an overwrite.  A second
`initialize_user` for a wallet address that already has a record fails
with `AlreadyExists` and leaves that record's fields unchanged, and a
second `create_issue` for a taken issue hash fails with `AlreadyExists`
and leaves the original issue record's fields unchanged. -/
theorem create_never_overwrites (st : ChainState) :
    (∀ payer user_pubkey initial_rep role now bump u,
      lookupRec user_pubkey st.users = some u →
      runOp st (Op.InitializeUser payer user_pubkey initial_rep role now bump) =
        (st, some ChainError.AlreadyExists) ∧
      lookupRec user_pubkey
          (runOp st
            (Op.InitializeUser payer user_pubkey initial_rep role now bump)).1.users =
        some u) ∧
    (∀ authority issue_hash category priority now bump i,
      lookupRec issue_hash st.issues = some i →
      runOp st (Op.CreateIssue authority issue_hash category priority now bump) =
        (st, some ChainError.AlreadyExists) ∧
      lookupRec issue_hash
          (runOp st
            (Op.CreateIssue authority issue_hash category priority now bump)).1.issues =
        some i) := by
  constructor
  · intro payer user_pubkey initial_rep role now bump u hu
    have hE : exec st
        (Op.InitializeUser payer user_pubkey initial_rep role now bump) =
        Except.error ChainError.AlreadyExists := by
      show initialize_user st payer user_pubkey initial_rep role now bump = _
      unfold initialize_user
      simp only [hu]
    exact ⟨by simp [runOp, hE], by simp [runOp, hE, hu]⟩
  · intro authority issue_hash category priority now bump i hi
    have hE : exec st
        (Op.CreateIssue authority issue_hash category priority now bump) =
        Except.error ChainError.AlreadyExists := by
      show create_issue st authority issue_hash category priority now bump = _
      unfold create_issue
      simp only [hi]
    exact ⟨by simp [runOp, hE], by simp [runOp, hE, hi]⟩

/-- Witness for C6: in `stW`, re-initializing user 1 and re-creating
issue 10 both fail with `AlreadyExists`, leaving the originals intact. -/
theorem create_never_overwrites_w :
    (runOp stW (Op.InitializeUser 2 1 50 UserRole.Government 7 200) =
        (stW, some ChainError.AlreadyExists) ∧
      lookupRec 1
          (runOp stW (Op.InitializeUser 2 1 50 UserRole.Government 7 200)).1.users =
        some citizenUser) ∧
    (runOp stW (Op.CreateIssue 1 10 IssueCategory.Garbage 9 7 200) =
        (stW, some ChainError.AlreadyExists) ∧
      lookupRec 10
          (runOp stW (Op.CreateIssue 1 10 IssueCategory.Garbage 9 7 200)).1.issues =
        some resolvedIssue) :=
  ⟨(create_never_overwrites stW).1 2 1 50 UserRole.Government 7 200 citizenUser
      (by decide),
   (create_never_overwrites stW).2 1 10 IssueCategory.Garbage 9 7 200
      resolvedIssue (by decide)⟩

/-- Claim C8: for a fresh issue hash and an existing reporter,
`create_issue` commits an issue record with status Open, all three
counters zero, `created_at = updated_at = now`, `reporter` set to the
signing authority, and bumps the reporter's `total_issues` by one; when
`total_issues` is already at its maximum the whole transaction fails with
`Overflow` and no issue record is created. -/
theorem createIssue_spec
    (st : ChainState) (authority : Pubkey) (issue_hash : IssueHash)
    (category : IssueCategory) (priority : Nat) (now : Int) (bump : Nat)
    (reporter : UserAccount)
    (hF : lookupRec issue_hash st.issues = none)
    (hR : lookupRec authority st.users = some reporter) :
    (reporter.total_issues < U32_MAX →
      ∃ st1,
        exec st (Op.CreateIssue authority issue_hash category priority now bump) =
          Except.ok st1 ∧
        lookupRec issue_hash st1.issues = some
          { issue_hash := issue_hash, reporter := authority,
            status := IssueStatus.Open, category := category,
            priority := priority, upvotes := 0, downvotes := 0,
            verifications := 0, created_at := now, updated_at := now,
            bump := bump } ∧
        lookupRec authority st1.users =
          some { reporter with total_issues := reporter.total_issues + 1 }) ∧
    (reporter.total_issues = U32_MAX →
      runOp st (Op.CreateIssue authority issue_hash category priority now bump) =
        (st, some (ChainError.Program ErrorCode.Overflow)) ∧
      lookupRec issue_hash
          (runOp st
            (Op.CreateIssue authority issue_hash category priority now bump)).1.issues =
        none) := by
  constructor
  · intro hlt
    have h1 : checked_add reporter.total_issues 1 =
        some (reporter.total_issues + 1) :=
      checked_add_some _ _ (by omega)
    have hE : exec st
        (Op.CreateIssue authority issue_hash category priority now bump) =
        Except.ok
          { st with
            issues :=
              (issue_hash,
                { issue_hash := issue_hash, reporter := authority,
                  status := IssueStatus.Open, category := category,
                  priority := priority, upvotes := 0, downvotes := 0,
                  verifications := 0, created_at := now, updated_at := now,
                  bump := bump }) :: st.issues
            users := setRec authority
              { reporter with total_issues := reporter.total_issues + 1 }
              st.users } := by
      show create_issue st authority issue_hash category priority now bump = _
      unfold create_issue
      simp only [hF, hR, h1]
    refine ⟨_, hE, ?_, ?_⟩
    · show lookupRec issue_hash ((issue_hash, _) :: st.issues) = _
      rw [lookupRec_cons, if_pos rfl]
    · exact lookupRec_setRec_self _ _ _ _ hR
  · intro hmax
    have hE : exec st
        (Op.CreateIssue authority issue_hash category priority now bump) =
        Except.error (ChainError.Program ErrorCode.Overflow) := by
      show create_issue st authority issue_hash category priority now bump = _
      unfold create_issue
      simp only [hF, hR]
      rw [hmax, checked_add_none U32_MAX 1 (by omega)]
    exact ⟨by simp [runOp, hE], by simp [runOp, hE, hF]⟩

/-- Witness for C8: citizen 1 creates fresh issue 99 in `stW`
(successful branch), and saturated reporter 4 fails on fresh issue 98
(overflow branch). -/
theorem createIssue_spec_w :
    (∃ st1,
      exec stW (Op.CreateIssue 1 99 IssueCategory.Pothole 5 7 250) =
        Except.ok st1 ∧
      lookupRec 99 st1.issues = some
        { issue_hash := 99, reporter := 1, status := IssueStatus.Open,
          category := IssueCategory.Pothole, priority := 5, upvotes := 0,
          downvotes := 0, verifications := 0, created_at := 7,
          updated_at := 7, bump := 250 } ∧
      lookupRec 1 st1.users =
        some { citizenUser with total_issues := citizenUser.total_issues + 1 }) ∧
    (runOp stW (Op.CreateIssue 4 98 IssueCategory.Other 0 7 250) =
        (stW, some (ChainError.Program ErrorCode.Overflow)) ∧
      lookupRec 98
          (runOp stW (Op.CreateIssue 4 98 IssueCategory.Other 0 7 250)).1.issues =
        none) :=
  ⟨(createIssue_spec stW 1 99 IssueCategory.Pothole 5 7 250 citizenUser
      (by decide) (by decide)).1 (by decide),
   (createIssue_spec stW 4 98 IssueCategory.Other 0 7 250 saturatedReporter
      (by decide) (by decide)).2 (by decide)⟩

/-- Claim C9: `update_reputation` succeeds for any caller (no role or
ownership check is performed), overwrites exactly the `reputation` field
of the target user record — every other field is unchanged — and leaves
the issue map untouched. -/
theorem updateReputation_spec
    (st : ChainState) (authority wallet_address : Pubkey) (new_rep : Nat)
    (user_account : UserAccount)
    (hU : lookupRec wallet_address st.users = some user_account) :
    ∃ st1,
      exec st (Op.UpdateReputation authority wallet_address new_rep) =
        Except.ok st1 ∧
      lookupRec wallet_address st1.users =
        some { user_account with reputation := new_rep } ∧
      st1.issues = st.issues := by
  have hE : exec st (Op.UpdateReputation authority wallet_address new_rep) =
      Except.ok
        { st with
          users := setRec wallet_address
            { user_account with reputation := new_rep } st.users } := by
    show update_reputation st authority wallet_address new_rep = _
    unfold update_reputation
    simp only [hU]
  exact ⟨_, hE, lookupRec_setRec_self _ _ _ _ hU, rfl⟩

/-- Witness for C9: citizen caller 1 rewrites government user 2's
reputation to 999 in `stW`. -/
theorem updateReputation_spec_w :
    ∃ st1,
      exec stW (Op.UpdateReputation 1 2 999) = Except.ok st1 ∧
      lookupRec 2 st1.users = some { governmentUser with reputation := 999 } ∧
      st1.issues = stW.issues :=
  updateReputation_spec stW 1 2 999 governmentUser (by decide)

/-- Claim C10: for a wallet address with no record yet,
`initialize_user` succeeds for any payer and any requested role —
Government included — and commits a record carrying exactly the given
role and reputation, with the wallet address taken from the instruction
argument rather than tied to the paying signer. -/
theorem initializeUser_unrestricted
    (st : ChainState) (payer user_pubkey : Pubkey) (initial_rep : Nat)
    (role : UserRole) (now : Int) (bump : Nat)
    (hF : lookupRec user_pubkey st.users = none) :
    ∃ st1,
      exec st (Op.InitializeUser payer user_pubkey initial_rep role now bump) =
        Except.ok st1 ∧
      lookupRec user_pubkey st1.users = some
        { wallet_address := user_pubkey, reputation := initial_rep,
          role := role, total_issues := 0, total_verifications := 0,
          created_at := now, bump := bump } := by
  have hE : exec st
      (Op.InitializeUser payer user_pubkey initial_rep role now bump) =
      Except.ok
        { st with
          users :=
            (user_pubkey,
              { wallet_address := user_pubkey, reputation := initial_rep,
                role := role, total_issues := 0, total_verifications := 0,
                created_at := now, bump := bump }) :: st.users } := by
    show initialize_user st payer user_pubkey initial_rep role now bump = _
    unfold initialize_user
    simp only [hF]
  refine ⟨_, hE, ?_⟩
  show lookupRec user_pubkey ((user_pubkey, _) :: st.users) = _
  rw [lookupRec_cons, if_pos rfl]

/-- Witness for C10: citizen payer 1 creates a Government-role record for
the fresh wallet 8 in `stW`. -/
theorem initializeUser_unrestricted_w :
    ∃ st1,
      exec stW (Op.InitializeUser 1 8 77 UserRole.Government 7 249) =
        Except.ok st1 ∧
      lookupRec 8 st1.users = some
        { wallet_address := 8, reputation := 77, role := UserRole.Government,
          total_issues := 0, total_verifications := 0, created_at := 7,
          bump := 249 } :=
  initializeUser_unrestricted stW 1 8 77 UserRole.Government 7 249 (by decide)

theorem userMono_refl (u : UserAccount) : UserMono u u :=
  ⟨le_refl _, le_refl _, rfl⟩

theorem issueMono_refl (i : IssueAccount) : IssueMono i i :=
  ⟨le_refl _, le_refl _, le_refl _⟩

theorem lookupRec_mono_setRec {α : Type} (P : α → α → Prop)
    (hrefl : ∀ x, P x x) (a : Nat) (acct n : α) (m : List (Nat × α))
    (hA : lookupRec a m = some acct) (hP : P acct n) :
    ∀ k u, lookupRec k m = some u →
      ∃ u1, lookupRec k (setRec a n m) = some u1 ∧ P u u1 := by
  intro k u hk
  by_cases hka : a = k
  · subst hka
    rw [hA] at hk
    injection hk with hk1
    subst hk1
    exact ⟨n, lookupRec_setRec_self _ _ _ _ hA, hP⟩
  · rw [lookupRec_setRec_ne _ _ _ _ hka]
    exact ⟨u, hk, hrefl u⟩

theorem lookupRec_mono_cons {α : Type} (P : α → α → Prop)
    (hrefl : ∀ x, P x x) (a : Nat) (n : α) (m : List (Nat × α))
    (hA : lookupRec a m = none) :
    ∀ k u, lookupRec k m = some u →
      ∃ u1, lookupRec k ((a, n) :: m) = some u1 ∧ P u u1 := by
  intro k u hk
  have hka : a ≠ k := by
    intro h
    subst h
    rw [hA] at hk
    cases hk
  exact ⟨u, by rw [lookupRec_cons, if_neg hka]; exact hk, hrefl u⟩

/-- Claim C7: after any one of the six instructions runs (successfully or
not) on any state, no counter field of any pre-existing record is smaller
than before — `total_issues`, `total_verifications`, `upvotes`,
`downvotes`, `verifications` are all monotone — and no pre-existing user
record's `role` field changed; since `initialize_user` is the only writer
of `role`, it always holds the value set at initialization. -/
theorem civicchain_step_monotone (st : ChainState) (op : Op) :
    (∀ k u, lookupRec k st.users = some u →
      ∃ u1, lookupRec k (runOp st op).1.users = some u1 ∧ UserMono u u1) ∧
    (∀ k i, lookupRec k st.issues = some i →
      ∃ i1, lookupRec k (runOp st op).1.issues = some i1 ∧ IssueMono i i1) := by
  cases hE : exec st op with
  | error e =>
      simp only [runOp, hE]
      exact ⟨fun k u hk => ⟨u, hk, userMono_refl u⟩,
             fun k i hi => ⟨i, hi, issueMono_refl i⟩⟩
  | ok st1 =>
      simp only [runOp, hE]
      cases op with
      | InitializeUser payer user_pubkey initial_rep role now bump =>
          simp only [exec] at hE
          unfold initialize_user at hE
          cases hu : lookupRec user_pubkey st.users with
          | some u0 => rw [hu] at hE; simp at hE
          | none =>
              rw [hu] at hE
              simp only [Except.ok.injEq] at hE
              subst hE
              exact ⟨lookupRec_mono_cons UserMono userMono_refl
                       user_pubkey _ st.users hu,
                     fun k i hi => ⟨i, hi, issueMono_refl i⟩⟩
      | CreateIssue authority issue_hash category priority now bump =>
          simp only [exec] at hE
          unfold create_issue at hE
          cases hF : lookupRec issue_hash st.issues with
          | some i0 => rw [hF] at hE; simp at hE
          | none =>
              rw [hF] at hE
              cases hR : lookupRec authority st.users with
              | none => rw [hR] at hE; simp at hE
              | some reporter =>
                  simp only [hR] at hE
                  cases hadd : checked_add reporter.total_issues 1 with
                  | none => rw [hadd] at hE; simp at hE
                  | some t =>
                      rw [hadd] at hE
                      simp only [Except.ok.injEq] at hE
                      subst hE
                      have ht : reporter.total_issues ≤ t := by
                        rw [checked_add_eq_add hadd]; omega
                      exact ⟨lookupRec_mono_setRec UserMono userMono_refl
                               authority reporter _ st.users hR
                               ⟨ht, le_refl _, rfl⟩,
                             lookupRec_mono_cons IssueMono issueMono_refl
                               issue_hash _ st.issues hF⟩
      | RecordVote voter issue_hash vote_type now =>
          simp only [exec] at hE
          unfold record_vote at hE
          cases hI2 : lookupRec issue_hash st.issues with
          | none => rw [hI2] at hE; simp at hE
          | some issue_account =>
              rw [hI2] at hE
              cases hV2 : lookupRec voter st.users with
              | none => rw [hV2] at hE; simp at hE
              | some voter_account =>
                  simp only [hV2] at hE
                  cases vote_type with
                  | Upvote =>
                      cases hadd : checked_add issue_account.upvotes 1 with
                      | none => rw [hadd] at hE; simp at hE
                      | some u2 =>
                          rw [hadd] at hE
                          simp only [Except.ok.injEq] at hE
                          subst hE
                          have hu2 : issue_account.upvotes ≤ u2 := by
                            rw [checked_add_eq_add hadd]; omega
                          exact ⟨fun k u hk => ⟨u, hk, userMono_refl u⟩,
                                 lookupRec_mono_setRec IssueMono issueMono_refl
                                   issue_hash issue_account _ st.issues hI2
                                   ⟨hu2, le_refl _, le_refl _⟩⟩
                  | Downvote =>
                      cases hadd : checked_add issue_account.downvotes 1 with
                      | none => rw [hadd] at hE; simp at hE
                      | some d2 =>
                          rw [hadd] at hE
                          simp only [Except.ok.injEq] at hE
                          subst hE
                          have hd2 : issue_account.downvotes ≤ d2 := by
                            rw [checked_add_eq_add hadd]; omega
                          exact ⟨fun k u hk => ⟨u, hk, userMono_refl u⟩,
                                 lookupRec_mono_setRec IssueMono issueMono_refl
                                   issue_hash issue_account _ st.issues hI2
                                   ⟨le_refl _, hd2, le_refl _⟩⟩
      | RecordVerification verifier issue_hash now =>
          simp only [exec] at hE
          unfold record_verification at hE
          cases hI2 : lookupRec issue_hash st.issues with
          | none => rw [hI2] at hE; simp at hE
          | some issue_account =>
              rw [hI2] at hE
              cases hV2 : lookupRec verifier st.users with
              | none => rw [hV2] at hE; simp at hE
              | some verifier_account =>
                  simp only [hV2] at hE
                  by_cases hs : issue_account.status = IssueStatus.Resolved
                  · rw [if_pos hs] at hE
                    cases hadd1 : checked_add issue_account.verifications 1 with
                    | none => rw [hadd1] at hE; simp at hE
                    | some v =>
                        rw [hadd1] at hE
                        cases hadd2 :
                            checked_add verifier_account.total_verifications 1 with
                        | none => rw [hadd2] at hE; simp at hE
                        | some tv =>
                            rw [hadd2] at hE
                            simp only [Except.ok.injEq] at hE
                            subst hE
                            have hv : issue_account.verifications ≤ v := by
                              rw [checked_add_eq_add hadd1]; omega
                            have htv :
                                verifier_account.total_verifications ≤ tv := by
                              rw [checked_add_eq_add hadd2]; omega
                            refine ⟨lookupRec_mono_setRec UserMono userMono_refl
                                      verifier verifier_account _ st.users hV2
                                      ⟨le_refl _, htv, rfl⟩, ?_⟩
                            refine lookupRec_mono_setRec IssueMono issueMono_refl
                              issue_hash issue_account _ st.issues hI2 ?_
                            refine ⟨?_, ?_, ?_⟩ <;> split <;> simp [hv]
                  · rw [if_neg hs] at hE; simp at hE
      | UpdateIssueStatus government issue_hash new_status now =>
          simp only [exec] at hE
          unfold update_issue_status at hE
          cases hI2 : lookupRec issue_hash st.issues with
          | none => rw [hI2] at hE; simp at hE
          | some issue_account =>
              rw [hI2] at hE
              cases hG : lookupRec government st.users with
              | none => rw [hG] at hE; simp at hE
              | some gov =>
                  simp only [hG] at hE
                  by_cases hrole : gov.role = UserRole.Government
                  · rw [if_pos hrole] at hE
                    simp only [Except.ok.injEq] at hE
                    subst hE
                    exact ⟨fun k u hk => ⟨u, hk, userMono_refl u⟩,
                           lookupRec_mono_setRec IssueMono issueMono_refl
                             issue_hash issue_account _ st.issues hI2
                             ⟨le_refl _, le_refl _, le_refl _⟩⟩
                  · rw [if_neg hrole] at hE; simp at hE
      | UpdateReputation authority wallet_address new_rep =>
          simp only [exec] at hE
          unfold update_reputation at hE
          cases hU : lookupRec wallet_address st.users with
          | none => rw [hU] at hE; simp at hE
          | some user_account =>
              simp only [hU] at hE
              simp only [Except.ok.injEq] at hE
              subst hE
              exact ⟨lookupRec_mono_setRec UserMono userMono_refl
                       wallet_address user_account _ st.users hU
                       ⟨le_refl _, le_refl _, rfl⟩,
                     fun k i hi => ⟨i, hi, issueMono_refl i⟩⟩

/-- Witness for C7: a successful verification on `stW` keeps citizen 1's
counters and role monotone, and keeps issue 10's counters monotone. -/
theorem civicchain_step_monotone_w :
    (∃ u1,
      lookupRec 1 (runOp stW (Op.RecordVerification 1 10 7)).1.users =
        some u1 ∧ UserMono citizenUser u1) ∧
    (∃ i1,
      lookupRec 10 (runOp stW (Op.RecordVerification 1 10 7)).1.issues =
        some i1 ∧ IssueMono resolvedIssue i1) :=
  ⟨(civicchain_step_monotone stW (Op.RecordVerification 1 10 7)).1 1
      citizenUser (by decide),
   (civicchain_step_monotone stW (Op.RecordVerification 1 10 7)).2 10
      resolvedIssue (by decide)⟩
